import Mathlib

/-!
Shallow embedding of the svelte-rc-knob interaction core.

Numbers are modelled as rationals; all arithmetic in the embedded code is
exact on the inputs used here.  JavaScript remainder (sign of the dividend),
Math.sign, Math.round, Math.ceil and the null-to-zero coercion of JavaScript
arithmetic are modelled explicitly.

The controller (src/lib/actions/events.ts, createKnobState) imports its
helpers from src/lib/utils.ts, so those are the definitions embedded at top
level.  The alternative implementation in src/lib/utils/math.ts is embedded
in the MathUtils namespace where a claim cites it.
-/

/-- Truncation toward zero, as used by the JavaScript remainder operator. -/
def ratTrunc (q : ℚ) : ℤ := if q < 0 then ⌈q⌉ else ⌊q⌋

/-- JavaScript remainder a % b for finite operands: a - b * trunc (a / b). -/
def jsMod (a b : ℚ) : ℚ := a - b * (ratTrunc (a / b) : ℚ)

/-- JavaScript Math.sign restricted to finite numbers. -/
def jsSign (q : ℚ) : ℚ := if 0 < q then 1 else if q < 0 then -1 else 0

/-- JavaScript Math.round: half-up toward positive infinity. -/
def jsRound (q : ℚ) : ℤ := ⌊q + 1/2⌋

/-- clamp from src/lib/utils.ts: Math.max(min, Math.min(max, value)). -/
def clamp (mn mx value : ℚ) : ℚ := Max.max mn (Min.min mx value)

/-- Position record returned by the resolver (src/lib/utils.ts). -/
structure Position where
  updated : Bool
  mouseAngle : ℚ
  percentage : ℚ
deriving DecidableEq

/-- calculatePercentageFromMouseAngle from src/lib/utils.ts (the identical
function also appears in src/lib/utils/angles.ts). -/
def calculatePercentageFromMouseAngle (mouseAngle angleOffset angleRange : ℚ) : ℚ :=
  let rangle := jsMod (mouseAngle - (angleOffset + angleRange * (1/2)) + 900) 360 - 180
  let percentage := 1/2 + rangle / angleRange
  clamp 0 1 percentage

/-- The deltaAngle/validDeltaAngle computation local to
calculatePositionFromMouseAngle in src/lib/utils.ts, hoisted to a named
definition: the raw difference is reduced with the JavaScript remainder and
folded into the interval [-180, 180]. -/
def validDeltaAngle (mouseAngle previousMouseAngle : ℚ) : ℚ :=
  let deltaAngle := jsMod (mouseAngle - previousMouseAngle) 360
  if 180 < deltaAngle then -(360 - deltaAngle)
  else if deltaAngle < -180 then 360 + deltaAngle
  else deltaAngle

/-- calculatePositionFromMouseAngle from src/lib/utils.ts.  The
previousPercentage parameter is optional in the source; at every use site
inside the function a null value would be coerced to 0 by JavaScript
arithmetic (and the controller in fact always passes the non-null state
percentage together with a non-null previous angle), which Option.getD 0
models. -/
def calculatePositionFromMouseAngle (mouseAngle : ℚ) (multiRotation : Bool)
    (angleOffset angleRange percentage : ℚ)
    (previousPercentage previousMouseAngle : Option ℚ) : Position :=
  match previousMouseAngle with
  | some prevAngle =>
      let validDelta := validDeltaAngle mouseAngle prevAngle
      if 120 ≤ validDelta ∨ validDelta ≤ -120 then
        { updated := false, mouseAngle := prevAngle,
          percentage := previousPercentage.getD 0 }
      else
        let newPercentage := previousPercentage.getD 0 + validDelta / angleRange
        if multiRotation = false ∧ (newPercentage < 0 ∨ 1 < newPercentage) then
          let clampedPercentage : ℚ := if newPercentage < 0 then 0 else 1
          let theoricalMouseAngle :=
            if newPercentage < 0 then angleOffset
            else jsMod (angleOffset + angleRange + 720) 360
          { updated := true, mouseAngle := theoricalMouseAngle,
            percentage := clampedPercentage }
        else
          { updated := true, mouseAngle := mouseAngle, percentage := newPercentage }
  | none =>
      if multiRotation then
        let rawPercentage := calculatePercentageFromMouseAngle mouseAngle angleOffset angleRange
        let deltaPercent := jsMod (rawPercentage + 1 - jsMod percentage 1) 1
        let validDeltaPercent := if 1/2 < deltaPercent then deltaPercent - 1 else deltaPercent
        { updated := true, mouseAngle := mouseAngle,
          percentage := percentage + validDeltaPercent }
      else
        { updated := true, mouseAngle := mouseAngle,
          percentage := calculatePercentageFromMouseAngle mouseAngle angleOffset angleRange }

/-- snapPercentage from src/lib/utils.ts. -/
def snapPercentage (percentage nbIntervals : ℚ) : ℚ :=
  if percentage = 0 then 0
  else
    let sign := jsSign percentage
    let p := |percentage|
    let stepSize := 1 / nbIntervals
    let extra := jsMod (p + stepSize * (1/2)) stepSize
    sign * (p - stepSize * (1/2)) + sign * (stepSize - extra)

/-- snapPosition from src/lib/utils.ts.  The steps argument is optional and a
value of 0 is falsy in the JavaScript guard. -/
def snapPosition (position : Position) (angleOffset angleRange : ℚ)
    (steps : Option ℕ) : Position :=
  match position.updated, steps with
  | false, _ => position
  | true, none => position
  | true, some 0 => position
  | true, some (n + 1) =>
      let percentage := snapPercentage position.percentage ((n + 1 : ℕ) : ℚ)
      let mouseAngle := jsMod (angleOffset + angleRange * percentage) 360
      { position with
          percentage := percentage,
          mouseAngle := if mouseAngle < 0 then mouseAngle + 360 else mouseAngle }

/-- getValueFromPercentage from src/lib/utils.ts. -/
def getValueFromPercentage (mn mx percentage : ℚ) : ℚ := mn + (mx - mn) * percentage

/-- getPercentageFromValue from src/lib/utils.ts. -/
def getPercentageFromValue (mn mx value : ℚ) : ℚ := (value - mn) / (mx - mn)

namespace MathUtils

/-- snapPercentage from src/lib/utils/math.ts: Math.round(p * n) / n. -/
def snapPercentage (percentage nbIntervals : ℚ) : ℚ :=
  (jsRound (percentage * nbIntervals) : ℚ) / nbIntervals

end MathUtils

/-- Interaction state owned by createKnobState (src/lib/actions/events.ts),
mirroring the KnobState interface of src/lib/types.ts; the size field is
carried only for geometry and is omitted. -/
structure KnobState where
  isActive : Bool
  min : ℚ
  max : ℚ
  value : Option ℚ
  percentage : Option ℚ
  mouseAngle : Option ℚ
  startPercentage : Option ℚ
  startValue : Option ℚ
  multiRotation : Bool
  angleOffset : ℚ
  angleRange : ℚ
  tracking : Bool
  steps : Option ℕ
deriving DecidableEq

/-- Callback invocations observable from one controller transition, in the
order the code fires them. -/
inductive CB where
  | onChange : ℚ → CB
  | onInteractiveChange : ℚ → CB
  | onStart : CB
  | onEnd : CB
deriving DecidableEq

/-- Initial state built by createKnobState (src/lib/actions/events.ts).  The
JavaScript initialiser treats a 0 or null initialValue as falsy in
percentage, and value is initialValue with null replaced by 0. -/
def createKnobState (mn mx : ℚ) (multiRotation : Bool) (initialValue : Option ℚ)
    (angleOffset angleRange : ℚ) (steps : Option ℕ) (tracking : Bool) : KnobState where
  isActive := false
  min := mn
  max := mx
  value := some (initialValue.getD 0)
  percentage := some (match initialValue with
    | some v => if v = 0 then 0 else (v - mn) / (mx - mn)
    | none => 0)
  mouseAngle := none
  startPercentage := none
  startValue := none
  multiRotation := multiRotation
  angleOffset := angleOffset
  angleRange := angleRange
  tracking := tracking
  steps := steps

/-- handleStart from createKnobState.  The source updates percentage before
snapshotting startPercentage but snapshots startValue before updating value,
which is reproduced literally here.  Callback order: onStart,
onInteractiveChange, then onChange when tracking. -/
def handleStart (s : KnobState) (mouseAngle : ℚ) : KnobState × List CB :=
  let position := calculatePositionFromMouseAngle mouseAngle s.multiRotation
    s.angleOffset s.angleRange (s.percentage.getD 0) none none
  let position2 := snapPosition position s.angleOffset s.angleRange s.steps
  let value := getValueFromPercentage s.min s.max position2.percentage
  ({ s with
      isActive := true
      mouseAngle := some mouseAngle
      percentage := some position2.percentage
      startPercentage := some position2.percentage
      startValue := s.value
      value := some value },
   [CB.onStart, CB.onInteractiveChange value]
     ++ (if s.tracking then [CB.onChange value] else []))

/-- handleMove from createKnobState.  Note that the source stores the raw
incoming mouseAngle, not the mouseAngle returned by the resolver, and fires
onInteractiveChange unconditionally. -/
def handleMove (s : KnobState) (mouseAngle : ℚ) : KnobState × List CB :=
  if s.isActive then
    let position := calculatePositionFromMouseAngle mouseAngle s.multiRotation
      s.angleOffset s.angleRange (s.percentage.getD 0) s.percentage s.mouseAngle
    let position2 := snapPosition position s.angleOffset s.angleRange s.steps
    let value := getValueFromPercentage s.min s.max position2.percentage
    ({ s with
        mouseAngle := some mouseAngle
        percentage := some position2.percentage
        value := some value },
     [CB.onInteractiveChange value]
       ++ (if s.tracking then [CB.onChange value] else []))
  else (s, [])

/-- handleEnd from createKnobState. -/
def handleEnd (s : KnobState) : KnobState × List CB :=
  ({ s with isActive := false, startPercentage := none, startValue := none },
   (match s.value with
    | some v => if s.tracking then [] else [CB.onChange v]
    | none => []) ++ [CB.onEnd])

/-- handleCancel from createKnobState. -/
def handleCancel (s : KnobState) : KnobState × List CB :=
  match s.startValue with
  | some sv =>
      ({ s with
          value := some sv
          percentage := s.startPercentage
          isActive := false
          startPercentage := none
          startValue := none },
       (if s.tracking then [CB.onChange sv] else []) ++ [CB.onEnd])
  | none =>
      ({ s with isActive := false, startPercentage := none, startValue := none },
       [CB.onEnd])

/-- handleStep from createKnobState.  The only guard in the source is a null
value; isActive is not consulted. -/
def handleStep (s : KnobState) (direction : ℚ) : KnobState × List CB :=
  match s.value with
  | none => (s, [])
  | some v =>
      let value := clamp s.min s.max (v + direction)
      let percentage := getPercentageFromValue s.min s.max value
      ({ s with value := some value, percentage := some percentage },
       [CB.onInteractiveChange value, CB.onChange value])

/-- A sequence of move events applied to a state, ignoring the callbacks. -/
def applyMoves (s : KnobState) (moves : List ℚ) : KnobState :=
  moves.foldl (fun t m => (handleMove t m).1) s

/-- States of the interaction controller reachable, in single-rotation
mode, from a createKnobState initial state with a valid configuration
(min below max, initial value inside [min, max]) by the five transitions
start, move, end, cancel, step. -/
inductive ReachableSR : KnobState → Prop
  | init (mn mx : ℚ) (iv : Option ℚ) (ao ar : ℚ) (steps : Option ℕ) (tr : Bool)
      (hlt : mn < mx) (hiv : ∀ v, iv = some v → mn ≤ v ∧ v ≤ mx) :
      ReachableSR (createKnobState mn mx false iv ao ar steps tr)
  | start (s : KnobState) (a : ℚ) : ReachableSR s → ReachableSR (handleStart s a).1
  | move (s : KnobState) (a : ℚ) : ReachableSR s → ReachableSR (handleMove s a).1
  | ending (s : KnobState) : ReachableSR s → ReachableSR (handleEnd s).1
  | cancel (s : KnobState) : ReachableSR s → ReachableSR (handleCancel s).1
  | step (s : KnobState) (d : ℚ) : ReachableSR s → ReachableSR (handleStep s d).1

/-- ordered from the Spiral component: orders two value/payload pairs by
value. -/
def ordered (v1 p1 v2 p2 : ℚ) : ℚ × ℚ × ℚ × ℚ :=
  if v1 ≤ v2 then (v1, p1, v2, p2) else (v2, p2, v1, p1)

/-- The segment count nb of calcPath in the Spiral component:
Math.ceil(percentageMax - percentageMin) * 4, with the endpoints ordered
first.  The source applies no lower bound to this quantity. -/
def calcPathNb (percentageFrom outerRadiusFrom percentageTo outerRadiusTo : ℚ) : ℤ :=
  let o := ordered percentageFrom outerRadiusFrom percentageTo outerRadiusTo
  ⌈o.2.2.1 - o.1⌉ * 4

/-- The per-sample fraction coef = i / nb of calcPath in the Spiral
component.  When nb = 0 the only loop index is i = 0 and the JavaScript
division 0 / 0 evaluates to NaN, modelled as none; every coordinate built
from the coefficient then also becomes NaN. -/
def calcPathCoef (percentageFrom outerRadiusFrom percentageTo outerRadiusTo : ℚ)
    (i : ℕ) : Option ℚ :=
  let nb := calcPathNb percentageFrom outerRadiusFrom percentageTo outerRadiusTo
  if nb = 0 then none else some ((i : ℚ) / (nb : ℚ))

/-- The interpolated outer radius of sample i of calcPath in the Spiral
component; NaN coefficients propagate. -/
def calcPathOuterRadius (percentageFrom outerRadiusFrom percentageTo outerRadiusTo : ℚ)
    (i : ℕ) : Option ℚ :=
  let o := ordered percentageFrom outerRadiusFrom percentageTo outerRadiusTo
  (calcPathCoef percentageFrom outerRadiusFrom percentageTo outerRadiusTo i).map
    (fun coef => o.2.1 + (o.2.2.2 - o.2.1) * coef)

/-- A concrete mid-interaction state of a multi-rotation knob over [0, 1]
with consistent value 1/2, percentage 1/2, last mouse angle 0. -/
def activeMultiState : KnobState :=
  { isActive := true, min := 0, max := 1, value := some (1/2),
    percentage := some (1/2), mouseAngle := some 0,
    startPercentage := some (1/2), startValue := some (1/2),
    multiRotation := true, angleOffset := 0, angleRange := 360,
    tracking := false, steps := none }

/-- A concrete mid-interaction state of a single-rotation knob over
[0, 100] with consistent value 10 and percentage 1/10. -/
def activeSingleState : KnobState :=
  { isActive := true, min := 0, max := 100, value := some 10,
    percentage := some (1/10), mouseAngle := some 36,
    startPercentage := some (1/10), startValue := some 10,
    multiRotation := false, angleOffset := 0, angleRange := 360,
    tracking := false, steps := none }

example : calculatePercentageFromMouseAngle 0 0 360 = 0 := by
  norm_num [calculatePercentageFromMouseAngle, jsMod, ratTrunc, clamp]
example : calculatePercentageFromMouseAngle 180 0 360 = 1/2 := by
  norm_num [calculatePercentageFromMouseAngle, jsMod, ratTrunc, clamp]
example : validDeltaAngle 350 0 = -10 := by
  norm_num [validDeltaAngle, jsMod, ratTrunc]
example :
    calculatePositionFromMouseAngle 150 true 0 360 (1/2) (some (1/2)) (some 0)
      = ⟨false, 0, 1/2⟩ := by
  norm_num [calculatePositionFromMouseAngle, validDeltaAngle, jsMod, ratTrunc]
example :
    calculatePositionFromMouseAngle 350 false 0 360 0 (some 0) (some 0)
      = ⟨true, 0, 0⟩ := by
  norm_num [calculatePositionFromMouseAngle, validDeltaAngle, jsMod, ratTrunc]
example : calculatePercentageFromMouseAngle 350 0 360 = 35/36 := by
  norm_num [calculatePercentageFromMouseAngle, jsMod, ratTrunc, clamp]
example : snapPercentage (1/3) 4 = 1/4 := by
  norm_num [snapPercentage, jsSign, jsMod, ratTrunc, abs_of_nonneg]
example : snapPercentage 1 4 = 1 := by
  norm_num [snapPercentage, jsSign, jsMod, ratTrunc, abs_of_nonneg]
example : snapPercentage 0 4 = 0 := by
  norm_num [snapPercentage]
example : snapPercentage (-1/3) 4 = -1/4 := by
  norm_num [snapPercentage, jsSign, jsMod, ratTrunc, abs_of_nonneg]

theorem floor_intCast_add_half (k : ℤ) : ⌊(k : ℚ) + 1/2⌋ = k := by
  rw [Int.floor_int_add]
  norm_num

/-- Closed form of snapPercentage from src/lib/utils.ts: it rounds the
magnitude onto the grid of multiples of 1 / nbIntervals, half away from
zero, and restores the sign. -/
theorem snapPercentage_eq_floor (p : ℚ) (n : ℕ) (hn : 0 < n) :
    snapPercentage p n = jsSign p * ((⌊|p| * n + 1/2⌋ : ℚ) / n) := by
  by_cases hp : p = 0
  · simp [snapPercentage, hp, jsSign]
  · have hnq : (0 : ℚ) < n := by exact_mod_cast hn
    have hnne : (n : ℚ) ≠ 0 := ne_of_gt hnq
    have harg : (|p| + 1 / (n : ℚ) * (1/2)) / (1 / (n : ℚ)) = |p| * n + 1/2 := by
      field_simp
      ring
    have h2 : ¬ (|p| * (n : ℚ) + 1/2 < 0) := by
      push_neg
      positivity
    simp only [snapPercentage, if_neg hp, jsMod]
    rw [harg]
    simp only [ratTrunc, if_neg h2]
    field_simp
    ring

/-- Grid points of the snapping grid are fixed by snapPercentage from
src/lib/utils.ts. -/
theorem snapPercentage_grid (n : ℕ) (hn : 0 < n) (k : ℤ) :
    snapPercentage ((k : ℚ) / n) n = (k : ℚ) / n := by
  have hnq : (0 : ℚ) < n := by exact_mod_cast hn
  have hnne : (n : ℚ) ≠ 0 := ne_of_gt hnq
  rcases lt_trichotomy (k : ℚ) 0 with hk | hk | hk
  · have hq : (k : ℚ) / n < 0 := div_neg_of_neg_of_pos hk hnq
    rw [snapPercentage_eq_floor _ n hn]
    have hsign : jsSign ((k : ℚ) / n) = -1 := by
      unfold jsSign
      rw [if_neg (by linarith), if_pos hq]
    have habs : |(k : ℚ) / n| = ((-k : ℤ) : ℚ) / n := by
      rw [abs_of_neg hq]
      push_cast
      ring
    rw [hsign, habs, div_mul_cancel₀ _ hnne, floor_intCast_add_half]
    push_cast
    ring
  · rw [hk, zero_div]
    simp [snapPercentage]
  · have hq : 0 < (k : ℚ) / n := div_pos hk hnq
    rw [snapPercentage_eq_floor _ n hn]
    have hsign : jsSign ((k : ℚ) / n) = 1 := by
      unfold jsSign
      rw [if_pos hq]
    have habs : |(k : ℚ) / n| = (k : ℚ) / n := abs_of_pos hq
    rw [hsign, habs, div_mul_cancel₀ _ hnne, floor_intCast_add_half, one_mul]

/-- Grid points of the snapping grid are fixed by snapPercentage from
src/lib/utils/math.ts. -/
theorem mathutils_snapPercentage_grid (n : ℕ) (hn : 0 < n) (k : ℤ) :
    MathUtils.snapPercentage ((k : ℚ) / n) n = (k : ℚ) / n := by
  have hnne : (n : ℚ) ≠ 0 := by positivity
  unfold MathUtils.snapPercentage jsRound
  rw [div_mul_cancel₀ _ hnne, floor_intCast_add_half]

/-- C1 counterexample: at a multi-rotation subsequent update whose
normalized delta is 150 degrees, well below the 180 degree bound the claim
names, the resolver nevertheless rejects the sample, because the code uses
a 120 degree threshold. -/
theorem c1_counterexample :
    validDeltaAngle 150 0 = 150 ∧ |(150 : ℚ)| ≤ 180 ∧
    calculatePositionFromMouseAngle 150 true 0 360 (1/2) (some (1/2)) (some 0)
      = { updated := false, mouseAngle := 0, percentage := 1/2 } := by
  refine ⟨?_, by norm_num, ?_⟩ <;>
    norm_num [calculatePositionFromMouseAngle, validDeltaAngle, jsMod, ratTrunc]

/-- C4 counterexample: a single-rotation subsequent update from previous
angle 0, previous percentage 0 to mouse angle 350 yields percentage 0
(delta-based, clamped at the low boundary), while the first-contact
computation on the same mouse angle alone yields 35/36; the two disagree,
so the update is not memoryless. -/
theorem c4_counterexample :
    calculatePositionFromMouseAngle 350 false 0 360 0 (some 0) (some 0)
      = { updated := true, mouseAngle := 0, percentage := 0 } ∧
    calculatePercentageFromMouseAngle 350 0 360 = 35/36 ∧
    (0 : ℚ) ≠ 35/36 := by
  refine ⟨?_, ?_, by norm_num⟩ <;>
    norm_num [calculatePositionFromMouseAngle, calculatePercentageFromMouseAngle,
      validDeltaAngle, jsMod, ratTrunc, clamp]

/-- The rejection test of the resolver, written with an or of two
comparisons in the source, is the absolute-value bound 120. -/
theorem reject_iff_abs (d : ℚ) : (120 ≤ d ∨ d ≤ -120) ↔ 120 ≤ |d| := by
  rw [le_abs]
  constructor
  · rintro (h | h)
    · exact Or.inl h
    · exact Or.inr (by linarith)
  · rintro (h | h)
    · exact Or.inl h
    · exact Or.inr (by linarith)

/-- C1 amended: a multi-rotation subsequent update is rejected (updated =
false with the previous mouse angle and percentage) exactly when the
normalized delta d = validDeltaAngle satisfies 120 <= the absolute value of
d, not 180; when the absolute value of d is below 120 it returns updated =
true with percentage = previousPercentage + d / angleRange, unclamped. -/
theorem c1_amended_multi_rotation_delta (m pa pp ao ar pct : ℚ) :
    calculatePositionFromMouseAngle m true ao ar pct (some pp) (some pa) =
      if 120 ≤ |validDeltaAngle m pa| then
        { updated := false, mouseAngle := pa, percentage := pp }
      else
        { updated := true, mouseAngle := m,
          percentage := pp + validDeltaAngle m pa / ar } := by
  simp only [calculatePositionFromMouseAngle, Option.getD_some, reject_iff_abs]
  by_cases h : 120 ≤ |validDeltaAngle m pa|
  · simp [h]
  · simp [h]

/-- C4 amended: a single-rotation subsequent update is delta-based, not
memoryless: with d = validDeltaAngle it rejects when 120 <= the absolute
value of d, and otherwise advances previousPercentage by d / angleRange,
replacing the result by 0 or 1 (with a synthesized boundary mouse angle)
when it leaves [0, 1]; the result therefore depends on previousPercentage
and previousMouseAngle, not on the current mouse angle alone. -/
theorem c4_amended_single_rotation_delta (m pa pp ao ar pct : ℚ) :
    calculatePositionFromMouseAngle m false ao ar pct (some pp) (some pa) =
      if 120 ≤ |validDeltaAngle m pa| then
        { updated := false, mouseAngle := pa, percentage := pp }
      else if pp + validDeltaAngle m pa / ar < 0 then
        { updated := true, mouseAngle := ao, percentage := 0 }
      else if 1 < pp + validDeltaAngle m pa / ar then
        { updated := true, mouseAngle := jsMod (ao + ar + 720) 360, percentage := 1 }
      else
        { updated := true, mouseAngle := m,
          percentage := pp + validDeltaAngle m pa / ar } := by
  simp only [calculatePositionFromMouseAngle, Option.getD_some, reject_iff_abs]
  by_cases h : 120 ≤ |validDeltaAngle m pa|
  · simp [h]
  · by_cases h0 : pp + validDeltaAngle m pa / ar < 0
    · simp [h, h0]
    · by_cases h1 : 1 < pp + validDeltaAngle m pa / ar
      · simp [h, h0, h1]
      · simp [h, h0, h1]

/-- C5 counterexample: at mouseAngle 0, angleOffset 0, angleRange 360 the
percentage computed by the code is 0, not the 0.5 the claim states. -/
theorem c5_counterexample :
    calculatePercentageFromMouseAngle 0 0 360 = 0 ∧ (0 : ℚ) ≠ 1/2 := by
  constructor
  · norm_num [calculatePercentageFromMouseAngle, jsMod, ratTrunc, clamp]
  · norm_num

/-- C5 amended: mouse angle 0 with angleOffset 0 and angleRange 360 maps to
percentage 0, the start of the range; the midpoint 0.5 is reached at mouse
angle 180 instead. -/
theorem c5_amended_top_maps_to_start :
    calculatePercentageFromMouseAngle 0 0 360 = 0 ∧
    calculatePercentageFromMouseAngle 180 0 360 = 1/2 := by
  constructor <;>
    norm_num [calculatePercentageFromMouseAngle, jsMod, ratTrunc, clamp]

/-- C8: in the Spiral path generator with coincident endpoints
percentageFrom = percentageTo = 1/2 (radii 10 and 20), the segment count nb
evaluates to 0 with no minimum-1 guard in the code, and the per-sample
fraction i / nb at the only loop index i = 0 is the undefined division
0 / 0 (NaN in JavaScript), which propagates into the sample radius and
hence into the emitted path coordinates. -/
theorem c8_spiral_nb_zero_unguarded :
    calcPathNb (1/2) 10 (1/2) 20 = 0 ∧
    calcPathCoef (1/2) 10 (1/2) 20 0 = none ∧
    calcPathOuterRadius (1/2) 10 (1/2) 20 0 = none := by
  refine ⟨?_, ?_, ?_⟩ <;>
    norm_num [calcPathNb, calcPathCoef, calcPathOuterRadius, ordered]

/-- C2: with the resolver rejecting the sample (updated = false, here a
150 degree jump in multi-rotation mode), handleMove still overwrites the
stored mouse angle with the raw rejected sample angle and still fires
onInteractiveChange; the percentage does keep its previous value. -/
theorem c2_rejected_sample_mutates_and_fires :
    (calculatePositionFromMouseAngle 150 true 0 360 (1/2) (some (1/2))
      (some 0)).updated = false ∧
    (handleMove activeMultiState 150).1.mouseAngle = some 150 ∧
    (handleMove activeMultiState 150).1.percentage = some (1/2) ∧
    (handleMove activeMultiState 150).2 = [CB.onInteractiveChange (1/2)] := by
  refine ⟨?_, ?_, ?_, ?_⟩ <;>
    norm_num [handleMove, activeMultiState, calculatePositionFromMouseAngle,
      validDeltaAngle, jsMod, ratTrunc, snapPosition, getValueFromPercentage]

/-- C3: starting an interaction at mouse angle 180 on a single-rotation
knob over [0, 100] resting at value 10 and then cancelling leaves
value = 10 but percentage = 1/2, because handleStart snapshots
startPercentage after updating percentage and startValue before updating
value; the invariant value = min + (max - min) * percentage fails after
the cancel transition. -/
theorem c3_cancel_breaks_value_percentage_invariant :
    (handleCancel
        (handleStart (createKnobState 0 100 false (some 10) 0 360 none false)
          180).1).1.value = some 10 ∧
    (handleCancel
        (handleStart (createKnobState 0 100 false (some 10) 0 360 none false)
          180).1).1.percentage = some (1/2) ∧
    (10 : ℚ) ≠ getValueFromPercentage 0 100 (1/2) := by
  refine ⟨?_, ?_, by norm_num [getValueFromPercentage]⟩ <;>
    norm_num [handleCancel, handleStart, createKnobState,
      calculatePositionFromMouseAngle, calculatePercentageFromMouseAngle,
      jsMod, ratTrunc, clamp, snapPosition, getValueFromPercentage]

/-- C10 amended: handleStep is guarded only by a null value, not by the
Idle state: from every state whose value is non-null, active or not, it
clamps value + direction into [min, max], re-derives percentage from the
new value, and fires onInteractiveChange and onChange. -/
theorem c10_amended_step_guarded_by_value_only (s : KnobState) (d v : ℚ)
    (h : s.value = some v) :
    handleStep s d =
      ({ s with
          value := some (clamp s.min s.max (v + d)),
          percentage :=
            some (getPercentageFromValue s.min s.max (clamp s.min s.max (v + d))) },
       [CB.onInteractiveChange (clamp s.min s.max (v + d)),
        CB.onChange (clamp s.min s.max (v + d))]) := by
  simp [handleStep, h]

/-- C10 witness: the amended characterization evaluated on a concrete
active state. -/
theorem c10_witness :
    handleStep activeSingleState 1 =
      ({ activeSingleState with value := some 11, percentage := some (11/100) },
       [CB.onInteractiveChange 11, CB.onChange 11]) := by
  rw [c10_amended_step_guarded_by_value_only activeSingleState 1 10 rfl]
  norm_num [activeSingleState, clamp, getPercentageFromValue]

/-- C10 counterexample: from a state with isActive = true, a step event
changes value (10 to 11) and percentage and fires both callbacks; the
claimed Idle-only guard does not exist in handleStep. -/
theorem c10_counterexample :
    activeSingleState.isActive = true ∧
    (handleStep activeSingleState 1).1.value = some 11 ∧
    (handleStep activeSingleState 1).1.percentage = some (11/100) ∧
    (handleStep activeSingleState 1).2
      = [CB.onInteractiveChange 11, CB.onChange 11] := by
  refine ⟨rfl, ?_, ?_, ?_⟩ <;>
    norm_num [handleStep, activeSingleState, clamp, getPercentageFromValue]

/-- C9: for every percentage p and integer step count n at least 2, both
snapPercentage implementations (src/lib/utils.ts and src/lib/utils/math.ts)
are idempotent and exact at the endpoints 0 and 1. -/
theorem c9_snap_idempotent_endpoints (p : ℚ) (n : ℕ) (hn : 2 ≤ n) :
    (snapPercentage (snapPercentage p n) n = snapPercentage p n ∧
      snapPercentage 0 n = 0 ∧ snapPercentage 1 n = 1) ∧
    (MathUtils.snapPercentage (MathUtils.snapPercentage p n) n
        = MathUtils.snapPercentage p n ∧
      MathUtils.snapPercentage 0 n = 0 ∧ MathUtils.snapPercentage 1 n = 1) := by
  have hn0 : 0 < n := lt_of_lt_of_le (by norm_num) hn
  have hnq : (0 : ℚ) < n := by exact_mod_cast hn0
  have hnne : (n : ℚ) ≠ 0 := ne_of_gt hnq
  have hone : (1 : ℚ) = ((n : ℤ) : ℚ) / n := by
    push_cast
    rw [div_self hnne]
  refine ⟨⟨?_, by simp [snapPercentage], ?_⟩, ⟨?_, ?_, ?_⟩⟩
  · rw [snapPercentage_eq_floor p n hn0]
    rcases lt_trichotomy p 0 with hp | hp | hp
    · have hsign : jsSign p = -1 := by
        unfold jsSign
        rw [if_neg (by linarith), if_pos hp]
      rw [hsign]
      have hneg : -1 * ((⌊|p| * n + 1/2⌋ : ℚ) / n)
          = ((-⌊|p| * (n : ℚ) + 1/2⌋ : ℤ) : ℚ) / n := by
        push_cast
        ring
      rw [hneg, snapPercentage_grid n hn0]
    · have hsign : jsSign p = 0 := by
        unfold jsSign
        rw [if_neg (by rw [hp]; exact lt_irrefl 0), if_neg (by rw [hp]; exact lt_irrefl 0)]
      rw [hsign, zero_mul]
      simp [snapPercentage]
    · have hsign : jsSign p = 1 := by
        unfold jsSign
        rw [if_pos hp]
      rw [hsign, one_mul]
      exact snapPercentage_grid n hn0 _
  · rw [hone, snapPercentage_grid n hn0]
  · have hrep : MathUtils.snapPercentage p n = ((⌊p * n + 1/2⌋ : ℤ) : ℚ) / n := rfl
    rw [hrep, mathutils_snapPercentage_grid n hn0]
  · unfold MathUtils.snapPercentage jsRound
    norm_num
  · rw [hone, mathutils_snapPercentage_grid n hn0]

/-- C9 witness: the snapping properties evaluated at p = 1/3 and n = 4. -/
theorem c9_witness :
    (snapPercentage (snapPercentage (1/3) 4) 4 = snapPercentage (1/3) 4 ∧
      snapPercentage 0 4 = 0 ∧ snapPercentage 1 4 = 1) ∧
    (MathUtils.snapPercentage (MathUtils.snapPercentage (1/3) 4) 4
        = MathUtils.snapPercentage (1/3) 4 ∧
      MathUtils.snapPercentage 0 4 = 0 ∧ MathUtils.snapPercentage 1 4 = 1) := by
  exact_mod_cast c9_snap_idempotent_endpoints (1/3) 4 (by norm_num)

theorem handleMove_fst_startValue (s : KnobState) (a : ℚ) :
    (handleMove s a).1.startValue = s.startValue := by
  by_cases h : s.isActive <;> simp [handleMove, h]

theorem handleMove_fst_startPercentage (s : KnobState) (a : ℚ) :
    (handleMove s a).1.startPercentage = s.startPercentage := by
  by_cases h : s.isActive <;> simp [handleMove, h]

theorem handleMove_fst_tracking (s : KnobState) (a : ℚ) :
    (handleMove s a).1.tracking = s.tracking := by
  by_cases h : s.isActive <;> simp [handleMove, h]

theorem handleMove_fst_multiRotation (s : KnobState) (a : ℚ) :
    (handleMove s a).1.multiRotation = s.multiRotation := by
  by_cases h : s.isActive <;> simp [handleMove, h]

theorem handleMove_fst_min (s : KnobState) (a : ℚ) :
    (handleMove s a).1.min = s.min := by
  by_cases h : s.isActive <;> simp [handleMove, h]

theorem handleMove_fst_max (s : KnobState) (a : ℚ) :
    (handleMove s a).1.max = s.max := by
  by_cases h : s.isActive <;> simp [handleMove, h]

theorem applyMoves_startValue (ms : List ℚ) (s : KnobState) :
    (applyMoves s ms).startValue = s.startValue := by
  induction ms generalizing s with
  | nil => rfl
  | cons m ms ih =>
      show (applyMoves (handleMove s m).1 ms).startValue = s.startValue
      rw [ih, handleMove_fst_startValue]

theorem applyMoves_tracking (ms : List ℚ) (s : KnobState) :
    (applyMoves s ms).tracking = s.tracking := by
  induction ms generalizing s with
  | nil => rfl
  | cons m ms ih =>
      show (applyMoves (handleMove s m).1 ms).tracking = s.tracking
      rw [ih, handleMove_fst_tracking]

/-- C6: for an interaction started from a state resting at value v0 and
followed by any sequence of moves, handleCancel restores value to v0,
clears the start snapshot, leaves the active flag false, fires onEnd,
fires onChange v0 exactly when tracking is on, and fires no onChange at
all when tracking is off. -/
theorem c6_cancel_restores_start_value (s : KnobState) (a : ℚ) (moves : List ℚ)
    (v0 : ℚ) (h : s.value = some v0) :
    (handleCancel (applyMoves (handleStart s a).1 moves)).1.value = some v0 ∧
    (handleCancel (applyMoves (handleStart s a).1 moves)).1.startValue = none ∧
    (handleCancel (applyMoves (handleStart s a).1 moves)).1.startPercentage = none ∧
    (handleCancel (applyMoves (handleStart s a).1 moves)).1.isActive = false ∧
    CB.onEnd ∈ (handleCancel (applyMoves (handleStart s a).1 moves)).2 ∧
    (CB.onChange v0 ∈ (handleCancel (applyMoves (handleStart s a).1 moves)).2
      ↔ s.tracking = true) ∧
    (s.tracking = false →
      ∀ w, CB.onChange w ∉ (handleCancel (applyMoves (handleStart s a).1 moves)).2) := by
  have hsv : (applyMoves (handleStart s a).1 moves).startValue = some v0 := by
    rw [applyMoves_startValue]
    exact h
  have htr : (applyMoves (handleStart s a).1 moves).tracking = s.tracking := by
    rw [applyMoves_tracking]
    rfl
  have hcancel : handleCancel (applyMoves (handleStart s a).1 moves) =
      ({ applyMoves (handleStart s a).1 moves with
          value := some v0
          percentage := (applyMoves (handleStart s a).1 moves).startPercentage
          isActive := false
          startPercentage := none
          startValue := none },
       (if (applyMoves (handleStart s a).1 moves).tracking
          then [CB.onChange v0] else []) ++ [CB.onEnd]) := by
    simp [handleCancel, hsv]
  rw [hcancel, htr]
  refine ⟨rfl, rfl, rfl, rfl, ?_, ?_, ?_⟩
  · by_cases ht : s.tracking <;> simp [ht]
  · by_cases ht : s.tracking <;> simp [ht]
  · intro ht w
    rw [ht]
    simp

/-- C6 witness: a concrete start, drag, cancel trace on a knob over
[0, 100] resting at value 10. -/
theorem c6_witness :
    (handleCancel (applyMoves
        (handleStart (createKnobState 0 100 false (some 10) 0 360 none false) 180).1
        [90])).1.value = some 10 :=
  (c6_cancel_restores_start_value
    (createKnobState 0 100 false (some 10) 0 360 none false) 180 [90] 10 rfl).1

theorem clamp01_mem (x : ℚ) : 0 ≤ clamp 0 1 x ∧ clamp 0 1 x ≤ 1 := by
  unfold clamp
  exact ⟨le_max_left 0 _, max_le (by norm_num) (min_le_left 1 x)⟩

theorem clamp_mem (mn mx x : ℚ) (h : mn ≤ mx) :
    mn ≤ clamp mn mx x ∧ clamp mn mx x ≤ mx := by
  unfold clamp
  exact ⟨le_max_left _ _, max_le h (min_le_left _ _)⟩

theorem calculatePercentageFromMouseAngle_mem (m ao ar : ℚ) :
    0 ≤ calculatePercentageFromMouseAngle m ao ar ∧
    calculatePercentageFromMouseAngle m ao ar ≤ 1 := by
  unfold calculatePercentageFromMouseAngle
  exact clamp01_mem _

theorem snapPercentage_mem (p : ℚ) (n : ℕ) (hn : 0 < n) (h0 : 0 ≤ p) (h1 : p ≤ 1) :
    0 ≤ snapPercentage p n ∧ snapPercentage p n ≤ 1 := by
  have hnq : (0 : ℚ) < n := by exact_mod_cast hn
  rcases eq_or_lt_of_le h0 with hz | hpos
  · rw [← hz]
    simp [snapPercentage]
  · rw [snapPercentage_eq_floor p n hn]
    have hsign : jsSign p = 1 := by
      unfold jsSign
      rw [if_pos hpos]
    rw [hsign, one_mul, abs_of_pos hpos]
    have hk0 : (0 : ℤ) ≤ ⌊p * (n : ℚ) + 1/2⌋ := Int.le_floor.mpr (by push_cast; positivity)
    have hkn : ⌊p * (n : ℚ) + 1/2⌋ ≤ n := by
      calc ⌊p * (n : ℚ) + 1/2⌋ ≤ ⌊((n : ℤ) : ℚ) + 1/2⌋ := by
            apply Int.floor_le_floor
            push_cast
            nlinarith
        _ = n := floor_intCast_add_half n
    constructor
    · exact div_nonneg (by exact_mod_cast hk0) (le_of_lt hnq)
    · rw [div_le_one hnq]
      exact_mod_cast hkn

theorem snapPosition_percentage_mem (pos : Position) (ao ar : ℚ) (steps : Option ℕ)
    (h0 : 0 ≤ pos.percentage) (h1 : pos.percentage ≤ 1) :
    0 ≤ (snapPosition pos ao ar steps).percentage ∧
    (snapPosition pos ao ar steps).percentage ≤ 1 := by
  rcases pos with ⟨u, ma, pc⟩
  cases u
  · exact ⟨h0, h1⟩
  · cases steps with
    | none => exact ⟨h0, h1⟩
    | some k =>
        cases k with
        | zero => exact ⟨h0, h1⟩
        | succ n => exact snapPercentage_mem pc (n + 1) (Nat.succ_pos n) h0 h1

theorem resolver_single_percentage_mem (m ao ar pct : ℚ) (pp pa : Option ℚ)
    (hpp : ∀ x, pp = some x → 0 ≤ x ∧ x ≤ 1) :
    0 ≤ (calculatePositionFromMouseAngle m false ao ar pct pp pa).percentage ∧
    (calculatePositionFromMouseAngle m false ao ar pct pp pa).percentage ≤ 1 := by
  have hppD : 0 ≤ pp.getD 0 ∧ pp.getD 0 ≤ 1 := by
    cases pp with
    | none => norm_num
    | some x => simpa using hpp x rfl
  cases pa with
  | none =>
      simp only [calculatePositionFromMouseAngle, Bool.false_eq_true, if_false]
      exact calculatePercentageFromMouseAngle_mem m ao ar
  | some a0 =>
      simp only [calculatePositionFromMouseAngle]
      split_ifs with h1 h2 h3
      · exact hppD
      · exact ⟨le_refl 0, by norm_num⟩
      · exact ⟨by norm_num, le_refl 1⟩
      · have hx : ¬ (pp.getD 0 + validDeltaAngle m a0 / ar < 0 ∨
            1 < pp.getD 0 + validDeltaAngle m a0 / ar) := fun hc => h2 ⟨trivial, hc⟩
        push_neg at hx
        exact ⟨hx.1, hx.2⟩

theorem getPercentageFromValue_mem (mn mx v : ℚ) (hlt : mn < mx)
    (h0 : mn ≤ v) (h1 : v ≤ mx) :
    0 ≤ getPercentageFromValue mn mx v ∧ getPercentageFromValue mn mx v ≤ 1 := by
  unfold getPercentageFromValue
  constructor
  · exact div_nonneg (by linarith) (by linarith)
  · rw [div_le_one (by linarith)]
    linarith


/-- Inductive invariant of the controller in single-rotation mode: the
configuration stays single-rotation with min below max, and both the
current percentage and the start snapshot percentage stay inside [0, 1]. -/
theorem reachableSR_inv (s : KnobState) (h : ReachableSR s) :
    s.multiRotation = false ∧ s.min < s.max ∧
    (∀ p, s.percentage = some p → 0 ≤ p ∧ p ≤ 1) ∧
    (∀ q, s.startPercentage = some q → 0 ≤ q ∧ q ≤ 1) := by
  induction h with
  | init mn mx iv ao ar steps tr hlt hiv =>
      refine ⟨rfl, hlt, ?_, ?_⟩
      · intro p hp
        cases iv with
        | none =>
            simp only [createKnobState, Option.some.injEq] at hp
            subst hp
            norm_num
        | some v =>
            simp only [createKnobState, Option.some.injEq] at hp
            by_cases hv : v = 0
            · rw [if_pos hv] at hp
              subst hp
              norm_num
            · rw [if_neg hv] at hp
              subst hp
              obtain ⟨hv1, hv2⟩ := hiv v rfl
              exact getPercentageFromValue_mem mn mx v hlt hv1 hv2
      · intro q hq
        simp [createKnobState] at hq
  | start s a hprev ih =>
      obtain ⟨hm, hlt, hpct, hsp⟩ := ih
      have key : 0 ≤ (snapPosition (calculatePositionFromMouseAngle a s.multiRotation
            s.angleOffset s.angleRange (s.percentage.getD 0) none none)
            s.angleOffset s.angleRange s.steps).percentage ∧
          (snapPosition (calculatePositionFromMouseAngle a s.multiRotation
            s.angleOffset s.angleRange (s.percentage.getD 0) none none)
            s.angleOffset s.angleRange s.steps).percentage ≤ 1 := by
        rw [hm]
        have hres := resolver_single_percentage_mem a s.angleOffset s.angleRange
          (s.percentage.getD 0) none none (fun x hx => by cases hx)
        exact snapPosition_percentage_mem _ s.angleOffset s.angleRange s.steps
          hres.1 hres.2
      refine ⟨?_, ?_, ?_, ?_⟩
      · exact hm
      · exact hlt
      · intro p hp
        have hp2 : some ((snapPosition (calculatePositionFromMouseAngle a
            s.multiRotation s.angleOffset s.angleRange (s.percentage.getD 0) none none)
            s.angleOffset s.angleRange s.steps).percentage) = some p := hp
        rw [Option.some.injEq] at hp2
        subst hp2
        exact key
      · intro q hq
        have hq2 : some ((snapPosition (calculatePositionFromMouseAngle a
            s.multiRotation s.angleOffset s.angleRange (s.percentage.getD 0) none none)
            s.angleOffset s.angleRange s.steps).percentage) = some q := hq
        rw [Option.some.injEq] at hq2
        subst hq2
        exact key
  | move s a hprev ih =>
      obtain ⟨hm, hlt, hpct, hsp⟩ := ih
      by_cases hact : s.isActive
      · have hpc : (handleMove s a).1.percentage = some ((snapPosition
            (calculatePositionFromMouseAngle a s.multiRotation s.angleOffset
              s.angleRange (s.percentage.getD 0) s.percentage s.mouseAngle)
            s.angleOffset s.angleRange s.steps).percentage) := by
          simp [handleMove, hact]
        refine ⟨?_, ?_, ?_, ?_⟩
        · rw [handleMove_fst_multiRotation]
          exact hm
        · rw [handleMove_fst_min, handleMove_fst_max]
          exact hlt
        · intro p hp
          rw [hpc, Option.some.injEq] at hp
          subst hp
          rw [hm]
          have hres := resolver_single_percentage_mem a s.angleOffset s.angleRange
            (s.percentage.getD 0) s.percentage s.mouseAngle hpct
          exact snapPosition_percentage_mem _ s.angleOffset s.angleRange s.steps
            hres.1 hres.2
        · intro q hq
          rw [handleMove_fst_startPercentage] at hq
          exact hsp q hq
      · have heq : (handleMove s a).1 = s := by simp [handleMove, hact]
        rw [heq]
        exact ⟨hm, hlt, hpct, hsp⟩
  | ending s hprev ih =>
      obtain ⟨hm, hlt, hpct, hsp⟩ := ih
      refine ⟨?_, ?_, ?_, ?_⟩
      · exact hm
      · exact hlt
      · intro p hp
        exact hpct p hp
      · intro q hq
        exact Option.noConfusion hq
  | cancel s hprev ih =>
      obtain ⟨hm, hlt, hpct, hsp⟩ := ih
      cases hsv : s.startValue with
      | none =>
          have heq : (handleCancel s).1 =
              { s with isActive := false, startPercentage := none, startValue := none } := by
            simp [handleCancel, hsv]
          rw [heq]
          exact ⟨hm, hlt, fun p hp => hpct p hp, fun q hq => Option.noConfusion hq⟩
      | some sv =>
          have heq : (handleCancel s).1 =
              { s with value := some sv, percentage := s.startPercentage, isActive := false, startPercentage := none, startValue := none } := by
            simp [handleCancel, hsv]
          rw [heq]
          exact ⟨hm, hlt, fun p hp => hsp p hp, fun q hq => Option.noConfusion hq⟩
  | step s d hprev ih =>
      obtain ⟨hm, hlt, hpct, hsp⟩ := ih
      cases hv : s.value with
      | none =>
          have heq : (handleStep s d).1 = s := by simp [handleStep, hv]
          rw [heq]
          exact ⟨hm, hlt, hpct, hsp⟩
      | some v =>
          have heq : (handleStep s d).1 =
              { s with value := some (clamp s.min s.max (v + d)), percentage := some (getPercentageFromValue s.min s.max (clamp s.min s.max (v + d))) } := by
            simp [handleStep, hv]
          rw [heq]
          refine ⟨?_, ?_, ?_, ?_⟩
          · exact hm
          · exact hlt
          · intro p hp
            have hp2 : some (getPercentageFromValue s.min s.max
                (clamp s.min s.max (v + d))) = some p := hp
            rw [Option.some.injEq] at hp2
            subst hp2
            have hc := clamp_mem s.min s.max (v + d) (le_of_lt hlt)
            exact getPercentageFromValue_mem s.min s.max _ hlt hc.1 hc.2
          · intro q hq
            exact hsp q hq

/-- C7: in single-rotation mode, from any valid initial configuration
(min below max and an initial value inside [min, max]), every state
reachable by the controller transitions start, move, end, cancel and step
has its percentage inside [0, 1]. -/
theorem c7_single_rotation_percentage_bounds (s : KnobState) (h : ReachableSR s)
    (p : ℚ) (hp : s.percentage = some p) : 0 ≤ p ∧ p ≤ 1 :=
  (reachableSR_inv s h).2.2.1 p hp

/-- C7 witness: the bound evaluated on a concrete initial state. -/
theorem c7_witness : 0 ≤ (1/2 : ℚ) ∧ (1/2 : ℚ) ≤ 1 :=
  c7_single_rotation_percentage_bounds
    (createKnobState 0 1 false (some (1/2)) 0 360 none true)
    (ReachableSR.init 0 1 (some (1/2)) 0 360 none true (by norm_num)
      (fun v hv => by
        rw [Option.some.injEq] at hv
        subst hv
        norm_num))
    (1/2) (by norm_num [createKnobState])
